import Mathlib

/-!
Shallow embedding of the BorderRelief ML service (src/apps/ml/main.py).

The service exposes keyword-based item classification
(`POST /predict/category`), feedback logging, and a placeholder
routing endpoint (`POST /optimize/route`).  JSON bodies are validated
at the boundary by the schema layer before a handler runs.
-/

namespace BorderRelief

/-! ## Substring containment (Python `w in desc`) -/

/-- `begins w s` holds when the character list `s` starts with `w`. -/
def begins : List Char → List Char → Bool
  | [], _ => true
  | _ :: _, [] => false
  | c :: cs, d :: ds => (c == d) && begins cs ds

/-- `occurs w s` holds when `w` appears as a contiguous block of `s`:
the meaning of the Python membership test `w in s` on strings. -/
def occurs : List Char → List Char → Bool
  | w, [] => w.isEmpty
  | w, d :: ds => begins w (d :: ds) || occurs w ds

/-- Python `w in s` for strings `s` and `w`. -/
def str_contains (s w : String) : Bool :=
  occurs w.data s.data

/-- Python `s.lower()`, mapping ASCII case folding over the
characters (the keyword tests only involve ASCII text). -/
def str_lower (s : String) : String :=
  String.mk (s.data.map Char.toLower)

/-! ## Schemas -/

/-- Schema `PredictionRequest`: required `text_description`,
optional `image_base64` (unused by the logic). -/
structure PredictionRequest where
  text_description : String
  image_base64 : Option String
deriving DecidableEq, Repr

/-- Response shape of `POST /predict/category`.  `risk_reason` is
`none` for the branches whose JSON omits the key. -/
structure PredictionResult where
  category : String
  confidence : ℚ
  explanation : String
  risk_flag : Bool
  risk_reason : Option String
deriving DecidableEq, Repr

/-! ## predict_category -/

/-- The WATER keyword list of the first branch. -/
def WATER_KEYWORDS : List String := ["water", "bottle", "drink"]

/-- The MEDS keyword list of the second branch. -/
def MEDS_KEYWORDS : List String := ["pill", "drug", "medicine", "bandage"]

/-- `any(w in desc for w in kws)`. -/
def hasKeyword (desc : String) (kws : List String) : Bool :=
  kws.any (fun w => str_contains desc w)

/-- The explanation string of the WATER branch; the single quotes
around the word water are encoded through `Char.ofNat 39`. -/
def water_explanation : String :=
  "Detected keyword " ++ (Char.ofNat 39).toString ++ "water"
    ++ (Char.ofNat 39).toString ++ " in description."

/-- Handler of `POST /predict/category`: lowercase the description,
then first match wins among WATER, MEDS, OTHER. -/
def predict_category (req : PredictionRequest) : PredictionResult :=
  let desc := str_lower req.text_description
  if hasKeyword desc WATER_KEYWORDS then
    { category := "WATER"
      confidence := 98 / 100
      explanation := water_explanation
      risk_flag := false
      risk_reason := none }
  else if hasKeyword desc MEDS_KEYWORDS then
    { category := "MEDS"
      confidence := 92 / 100
      explanation := "Detected medical terminology."
      risk_flag := true
      risk_reason := some "Medical items require expiry check." }
  else
    { category := "OTHER"
      confidence := 45 / 100
      explanation := "No strong keywords found. Manual review recommended."
      risk_flag := false
      risk_reason := none }

/-! ## JSON values and boundary validation

A request body is a JSON object: a list of string-keyed fields. -/

/-- A JSON value, as carried by a request body. -/
inductive JValue : Type
  | jstr (s : String)
  | jnum (q : ℚ)
  | jbool (b : Bool)
  | jnull
  | jarr (xs : List JValue)
  | jobj (fs : List (String × JValue))

/-- A raw JSON request body: the fields of the top-level object. -/
def RawBody : Type := List (String × JValue)

/-- Value of the field named `k` of the body, when present. -/
def lookupField (b : RawBody) (k : String) : Option JValue :=
  (b.find? (fun p => p.1 == k)).map Prod.snd

/-- Modelled from the spec: the schema layer (missing from src/, it
lives in the pydantic framework) rejects a `PredictionRequest` body
whose required `text_description` is missing or not text; the
optional `image_base64` defaults to null. -/
def parsePredictionRequest (b : RawBody) : Except String PredictionRequest :=
  match lookupField b "text_description" with
  | some (JValue.jstr s) =>
    match lookupField b "image_base64" with
    | some (JValue.jstr i) => Except.ok ⟨s, some i⟩
    | some JValue.jnull => Except.ok ⟨s, none⟩
    | none => Except.ok ⟨s, none⟩
    | some _ => Except.error "image_base64: str type expected"
  | some _ => Except.error "text_description: str type expected"
  | none => Except.error "text_description: field required"

/-- `POST /predict/category` end to end: the handler runs only when
boundary validation succeeds. -/
def handlePredict (b : RawBody) : Except String PredictionResult :=
  (parsePredictionRequest b).map predict_category

/-! ## Route schemas and optimize_route -/

/-- Schema `RouteRequest`: required `locations` (a list of tuples)
and required `constraints` (an open string-keyed mapping). -/
structure RouteRequest where
  locations : List (List JValue)
  constraints : List (String × JValue)

/-- Response shape of `POST /optimize/route`. -/
structure RouteResult where
  route_id : String
  waypoints_order : List Nat
  total_distance_km : ℚ
  estimated_time_min : Nat
  explanation : String
deriving DecidableEq, Repr

/-- Handler of `POST /optimize/route`: a placeholder returning one
hardcoded literal response, whatever the request holds. -/
def optimize_route (_req : RouteRequest) : RouteResult :=
  { route_id := "route-123"
    waypoints_order := [0, 2, 1, 3]
    total_distance_km := 452 / 10
    estimated_time_min := 120
    explanation := "Route optimized to avoid Sector 4 (Red Zone)." }

/-- A JSON value read as a tuple: an array of values. -/
def parseTuple (v : JValue) : Except String (List JValue) :=
  match v with
  | JValue.jarr xs => Except.ok xs
  | _ => Except.error "locations: tuple type expected"

/-- Each element of `locations` read as a tuple. -/
def parseTuples : List JValue → Except String (List (List JValue))
  | [] => Except.ok []
  | v :: vs =>
    match parseTuple v with
    | Except.ok t =>
      match parseTuples vs with
      | Except.ok ts => Except.ok (t :: ts)
      | Except.error e => Except.error e
    | Except.error e => Except.error e

/-- The required `locations` field: a list of tuples. -/
def parseLocations (b : RawBody) : Except String (List (List JValue)) :=
  match lookupField b "locations" with
  | some (JValue.jarr xs) => parseTuples xs
  | some _ => Except.error "locations: list type expected"
  | none => Except.error "locations: field required"

/-- The required `constraints` field: an open string-keyed mapping. -/
def parseConstraints (b : RawBody) : Except String (List (String × JValue)) :=
  match lookupField b "constraints" with
  | some (JValue.jobj fs) => Except.ok fs
  | some _ => Except.error "constraints: dict type expected"
  | none => Except.error "constraints: field required"

/-- Modelled from the spec: the schema layer (missing from src/, it
lives in the pydantic framework) rejects a `RouteRequest` body that
lacks either required field or gives it the wrong shape; each field
is validated on its own. -/
def parseRouteRequest (b : RawBody) : Except String RouteRequest :=
  match parseLocations b, parseConstraints b with
  | Except.ok locs, Except.ok fs => Except.ok ⟨locs, fs⟩
  | Except.error e, _ => Except.error e
  | _, Except.error e => Except.error e

/-- `POST /optimize/route` end to end: the handler runs only when
boundary validation succeeds. -/
def handleRoute (b : RawBody) : Except String RouteResult :=
  (parseRouteRequest b).map optimize_route

/-! ## Theorems -/

/-- C1: a description holding both a WATER keyword and a MEDS keyword
(case-insensitively) classifies as WATER with confidence 0.98: the
WATER check runs before the MEDS check. -/
theorem predict_water_over_meds (req : PredictionRequest)
    (hw : hasKeyword (str_lower req.text_description) WATER_KEYWORDS = true)
    ( _hm : hasKeyword (str_lower req.text_description) MEDS_KEYWORDS = true) :
    (predict_category req).category = "WATER" ∧
      (predict_category req).confidence = 98 / 100 := by
  simp [predict_category, hw]

/-- C1 witness: the description "2L bottle of medicine" matches both
keyword sets and resolves to WATER. -/
theorem predict_water_over_meds_witness :
    (hasKeyword (str_lower "2L bottle of medicine") WATER_KEYWORDS = true ∧
      hasKeyword (str_lower "2L bottle of medicine") MEDS_KEYWORDS = true) ∧
    ((predict_category ⟨"2L bottle of medicine", none⟩).category = "WATER" ∧
      (predict_category ⟨"2L bottle of medicine", none⟩).confidence = 98 / 100) :=
  ⟨⟨by decide, by decide⟩,
    predict_water_over_meds ⟨"2L bottle of medicine", none⟩ (by decide) (by decide)⟩

/-- C2: optimize_route returns one fixed literal response — route id
route-123, waypoints order [0,2,1,3], 45.2 km, 120 min, explanation
citing avoidance of Sector 4 (Red Zone) — for every request, so the
result never depends on the input. -/
theorem optimize_route_is_fixed (req other : RouteRequest) :
    optimize_route req =
      { route_id := "route-123"
        waypoints_order := [0, 2, 1, 3]
        total_distance_km := 452 / 10
        estimated_time_min := 120
        explanation := "Route optimized to avoid Sector 4 (Red Zone)." } ∧
    optimize_route req = optimize_route other :=
  ⟨rfl, rfl⟩

/-- C3 counterexample: a valid request with two locations, for which
the returned waypoints order [0,2,1,3] is not a permutation of the
input indices 0..1. -/
theorem waypoints_not_perm_of_two :
    ¬ List.Perm
      (optimize_route ⟨[[JValue.jnum 0], [JValue.jnum 1]], []⟩).waypoints_order
      (List.range
        (RouteRequest.mk [[JValue.jnum 0], [JValue.jnum 1]] []).locations.length) := by
  decide

/-- C3 amended: the waypoints order is the fixed list [0,2,1,3], a
permutation of the input indices exactly when the request has four
locations. -/
theorem waypoints_perm_of_four (req : RouteRequest)
    (h : req.locations.length = 4) :
    List.Perm (optimize_route req).waypoints_order
      (List.range req.locations.length) := by
  rw [h]
  show List.Perm [0, 2, 1, 3] (List.range 4)
  decide

/-- C3 amended witness: a request with four locations, whose result
waypoints order is a permutation of 0..3. -/
theorem waypoints_perm_of_four_witness :
    (RouteRequest.mk [[JValue.jnum 0], [JValue.jnum 1], [JValue.jnum 2],
        [JValue.jnum 3]] []).locations.length = 4 ∧
    List.Perm
      (optimize_route ⟨[[JValue.jnum 0], [JValue.jnum 1], [JValue.jnum 2],
        [JValue.jnum 3]], []⟩).waypoints_order
      (List.range (RouteRequest.mk [[JValue.jnum 0], [JValue.jnum 1],
        [JValue.jnum 2], [JValue.jnum 3]] []).locations.length) :=
  ⟨rfl, waypoints_perm_of_four
    ⟨[[JValue.jnum 0], [JValue.jnum 1], [JValue.jnum 2], [JValue.jnum 3]], []⟩ rfl⟩

/-- C4: a description holding a WATER keyword and no MEDS keyword
(case-insensitively) classifies as WATER with confidence 0.98 and
risk flag false. -/
theorem predict_water_branch (req : PredictionRequest)
    (hw : hasKeyword (str_lower req.text_description) WATER_KEYWORDS = true)
    ( _hm : hasKeyword (str_lower req.text_description) MEDS_KEYWORDS = false) :
    (predict_category req).category = "WATER" ∧
      (predict_category req).confidence = 98 / 100 ∧
      (predict_category req).risk_flag = false := by
  simp [predict_category, hw]

/-- C4 witness: "Fresh Water supply" holds a WATER keyword and no
MEDS keyword. -/
theorem predict_water_branch_witness :
    (hasKeyword (str_lower "Fresh Water supply") WATER_KEYWORDS = true ∧
      hasKeyword (str_lower "Fresh Water supply") MEDS_KEYWORDS = false) ∧
    ((predict_category ⟨"Fresh Water supply", none⟩).category = "WATER" ∧
      (predict_category ⟨"Fresh Water supply", none⟩).confidence = 98 / 100 ∧
      (predict_category ⟨"Fresh Water supply", none⟩).risk_flag = false) :=
  ⟨⟨by decide, by decide⟩,
    predict_water_branch ⟨"Fresh Water supply", none⟩ (by decide) (by decide)⟩

/-- C5: a description holding a MEDS keyword and no WATER keyword
(case-insensitively) classifies as MEDS with confidence 0.92, risk
flag true, and the non-empty risk reason about expiry checks. -/
theorem predict_meds_branch (req : PredictionRequest)
    (hw : hasKeyword (str_lower req.text_description) WATER_KEYWORDS = false)
    (hm : hasKeyword (str_lower req.text_description) MEDS_KEYWORDS = true) :
    (predict_category req).category = "MEDS" ∧
      (predict_category req).confidence = 92 / 100 ∧
      (predict_category req).risk_flag = true ∧
      (predict_category req).risk_reason = some "Medical items require expiry check." ∧
      (predict_category req).risk_reason ≠ some "" := by
  simp [predict_category, hw, hm]

/-- C5 witness: "Aspirin pills" holds a MEDS keyword and no WATER
keyword. -/
theorem predict_meds_branch_witness :
    (hasKeyword (str_lower "Aspirin pills") WATER_KEYWORDS = false ∧
      hasKeyword (str_lower "Aspirin pills") MEDS_KEYWORDS = true) ∧
    ((predict_category ⟨"Aspirin pills", none⟩).category = "MEDS" ∧
      (predict_category ⟨"Aspirin pills", none⟩).confidence = 92 / 100 ∧
      (predict_category ⟨"Aspirin pills", none⟩).risk_flag = true ∧
      (predict_category ⟨"Aspirin pills", none⟩).risk_reason =
        some "Medical items require expiry check." ∧
      (predict_category ⟨"Aspirin pills", none⟩).risk_reason ≠ some "") :=
  ⟨⟨by decide, by decide⟩,
    predict_meds_branch ⟨"Aspirin pills", none⟩ (by decide) (by decide)⟩

/-- C6: a description holding neither a WATER nor a MEDS keyword
(case-insensitively) classifies as OTHER with confidence 0.45 and
risk flag false. -/
theorem predict_other_branch (req : PredictionRequest)
    (hw : hasKeyword (str_lower req.text_description) WATER_KEYWORDS = false)
    (hm : hasKeyword (str_lower req.text_description) MEDS_KEYWORDS = false) :
    (predict_category req).category = "OTHER" ∧
      (predict_category req).confidence = 45 / 100 ∧
      (predict_category req).risk_flag = false := by
  simp [predict_category, hw, hm]

/-- C6 witness: "family tent" holds no keyword of either set. -/
theorem predict_other_branch_witness :
    (hasKeyword (str_lower "family tent") WATER_KEYWORDS = false ∧
      hasKeyword (str_lower "family tent") MEDS_KEYWORDS = false) ∧
    ((predict_category ⟨"family tent", none⟩).category = "OTHER" ∧
      (predict_category ⟨"family tent", none⟩).confidence = 45 / 100 ∧
      (predict_category ⟨"family tent", none⟩).risk_flag = false) :=
  ⟨⟨by decide, by decide⟩,
    predict_other_branch ⟨"family tent", none⟩ (by decide) (by decide)⟩

/-- C7: the prediction is a pure function of the description alone:
two requests sharing a description — whatever their image payloads —
get identical responses. -/
theorem predict_category_pure (r1 r2 : PredictionRequest)
    (h : r1.text_description = r2.text_description) :
    predict_category r1 = predict_category r2 := by
  unfold predict_category
  rw [h]

/-- C7 witness: the same description with and without an image gets
the same response. -/
theorem predict_category_pure_witness :
    (PredictionRequest.mk "water" none).text_description =
      (PredictionRequest.mk "water" (some "aW1n")).text_description ∧
    predict_category ⟨"water", none⟩ = predict_category ⟨"water", some "aW1n"⟩ :=
  ⟨rfl, predict_category_pure ⟨"water", none⟩ ⟨"water", some "aW1n"⟩ rfl⟩

/-- C8: a body whose `text_description` is missing or not text is
rejected by boundary validation: the route yields a client error and
never a `PredictionResult`, the handler logic never running. -/
theorem predict_missing_text_rejected (b : RawBody)
    (h : ∀ s, lookupField b "text_description" ≠ some (JValue.jstr s)) :
    ∃ msg, handlePredict b = Except.error msg := by
  unfold handlePredict parsePredictionRequest
  cases hv : lookupField b "text_description" with
  | none => exact ⟨_, rfl⟩
  | some v =>
    cases v with
    | jstr s => exact absurd hv (h s)
    | jnum q => exact ⟨_, rfl⟩
    | jbool bb => exact ⟨_, rfl⟩
    | jnull => exact ⟨_, rfl⟩
    | jarr xs => exact ⟨_, rfl⟩
    | jobj fs => exact ⟨_, rfl⟩

/-- C8 witness: a body carrying only an image is rejected. -/
theorem predict_missing_text_rejected_witness :
    (∀ s, lookupField [("image_base64", JValue.jstr "aW1n")] "text_description" ≠
      some (JValue.jstr s)) ∧
    ∃ msg, handlePredict [("image_base64", JValue.jstr "aW1n")] = Except.error msg :=
  ⟨fun _ hx => Option.noConfusion hx,
    predict_missing_text_rejected [("image_base64", JValue.jstr "aW1n")]
      (fun _ hx => Option.noConfusion hx)⟩

/-- C9: a body lacking the `constraints` field is rejected by
boundary validation, since the RouteRequest schema declares
`constraints` as required. -/
theorem route_missing_constraints_rejected (b : RawBody)
    (h : lookupField b "constraints" = none) :
    ∃ msg, handleRoute b = Except.error msg := by
  have hc : parseConstraints b = Except.error "constraints: field required" := by
    unfold parseConstraints
    rw [h]
  cases hl : parseLocations b with
  | ok locs =>
    exact ⟨"constraints: field required", by
      unfold handleRoute parseRouteRequest
      rw [hl, hc]
      rfl⟩
  | error e =>
    exact ⟨e, by
      unfold handleRoute parseRouteRequest
      rw [hl, hc]
      rfl⟩

/-- C9 witness: a body carrying only locations is rejected. -/
theorem route_missing_constraints_rejected_witness :
    lookupField [("locations", JValue.jarr [JValue.jarr [JValue.jnum 0]])]
      "constraints" = none ∧
    ∃ msg, handleRoute [("locations", JValue.jarr [JValue.jarr [JValue.jnum 0]])] =
      Except.error msg :=
  ⟨rfl,
    route_missing_constraints_rejected
      [("locations", JValue.jarr [JValue.jarr [JValue.jnum 0]])] rfl⟩

/-- C10: whenever the prediction category is WATER, the explanation
is the one fixed string naming the keyword water — even when only
bottle or drink triggered the branch. -/
theorem water_branch_explanation (req : PredictionRequest)
    (h : (predict_category req).category = "WATER") :
    (predict_category req).explanation = water_explanation := by
  by_cases hw : hasKeyword (str_lower req.text_description) WATER_KEYWORDS
  · simp [predict_category, hw]
  · by_cases hm : hasKeyword (str_lower req.text_description) MEDS_KEYWORDS
    · simp [predict_category, hw, hm] at h
    · simp [predict_category, hw, hm] at h

/-- C10 witness: "a bottle of juice" does not contain the substring
water, yet the WATER explanation cites the keyword water. -/
theorem water_branch_explanation_witness :
    ((predict_category ⟨"a bottle of juice", none⟩).category = "WATER" ∧
      str_contains (str_lower "a bottle of juice") "water" = false) ∧
    (predict_category ⟨"a bottle of juice", none⟩).explanation = water_explanation :=
  ⟨⟨by decide, by decide⟩,
    water_branch_explanation ⟨"a bottle of juice", none⟩ (by decide)⟩

end BorderRelief
